import Mathlib

/-!
Verification of `braiins-os/updater/update.py` (firmware update trigger for
mining machines running Braiins OS).

The script's observable behaviour is embedded shallowly:

* a remote command (`ssh.run`) either succeeds with captured stdout/stderr,
  raises `CalledProcessError` carrying a returncode plus stdout/stderr, or
  raises some other exception (transport/auth error);
* `update_one` runs `opkg update` then `opkg install firmware` inside a
  `with SSHManager(...)` block, reclassifying an install failure whose
  returncode is `-signal.SIGHUP` as success;
* `main`'s batch loop iterates over the host list, catching errors per host
  with two `except` clauses (`except Exception` at line 46 before
  `except CalledProcessError` at line 50 — Python tries them in source
  order, and `CalledProcessError` is a subclass of `Exception`), counting
  errors and halting via `sys.exit` unless `--ignore` was given;
* the batch host list is the first CSV field of each row, with an optional
  `host` header row stripped;
* the default password is taken from the `-p` (`--password`) argument when truthy (Python
  string truthiness: non-empty), otherwise read interactively.
-/

namespace Updater

/-- On Linux, `signal.SIGHUP = 1`. -/
def SIGHUP : Int := 1

/-- Outcome of one remote command execution (`ssh.run`): success with
captured stdout/stderr, a `CalledProcessError` with returncode and captured
streams, or any other exception (transport error, auth error, ...). -/
inductive CmdResult where
  | ok (stdout stderr : String)
  | err (returncode : Int) (stdout stderr : String)
  | exn (msg : String)
deriving DecidableEq, Repr

/-- An exception escaping `update_one`: either a `CalledProcessError`
(subclass of `Exception`) or a generic `Exception`. -/
inductive UpdateError where
  | called (returncode : Int) (stdout stderr : String)
  | generic (msg : String)
deriving DecidableEq, Repr

/-- Behaviour of the remote side of one host during one upgrade attempt:
what `ssh.run 'opkg update'` and `ssh.run 'opkg install firmware'` would do. -/
structure HostBehavior where
  refresh : CmdResult
  install : CmdResult
deriving DecidableEq, Repr

/-- Semantics of one `ssh.run` call: translate the command outcome into
either captured output or a raised exception. -/
def runCmd : CmdResult → Except UpdateError (String × String)
  | .ok out err => .ok (out, err)
  | .err rc out err => .error (.called rc out err)
  | .exn msg => .error (.generic msg)

/-- What one execution of `update_one` did: its result (normal return or the
exception that escaped), whether the install command was ever executed, and
whether the remote session was closed before returning. -/
structure UpdateTrace where
  result : Except UpdateError Unit
  installAttempted : Bool
  sessionClosed : Bool
deriving Repr

/-- Body of the `with SSHManager(...)` block in `update_one`
(`update.py` lines 64-74): run `opkg update`; on success run
`opkg install firmware` inside a `try` that catches a `CalledProcessError`
with returncode `-signal.SIGHUP` (early `return`, i.e. success) and
re-raises every other `CalledProcessError`; a non-`CalledProcessError`
exception from the install command is not caught.  Returns the result
together with whether the install command was executed.
(The `time.sleep(1)` between the commands has no observable effect here.) -/
def update_body (b : HostBehavior) : Except UpdateError Unit × Bool :=
  match runCmd b.refresh with
  | .error e => (.error e, false)
  | .ok _ =>
    match runCmd b.install with
    | .ok _ => (.ok (), true)
    | .error (.called rc out err) =>
      if rc = -SIGHUP then (.ok (), true)
      else (.error (.called rc out err), true)
    | .error (.generic m) => (.error (.generic m), true)

/-- Modelled from the spec: `SSHManager` (module `upgrade.ssh`, not part of
this tree) is a context manager whose `__exit__` closes the remote session;
Python guarantees `__exit__` runs on every exit from the `with` block,
normal return and exception alike.  So the trace of `update_one` marks the
session closed on every path. -/
def update_one (b : HostBehavior) : UpdateTrace :=
  let r := update_body b
  ⟨r.1, r.2, true⟩

/-- Whether `update_one` raises for this host behaviour. -/
def updateFails (b : HostBehavior) : Bool :=
  match (update_one b).result with
  | .ok _ => false
  | .error _ => true

/-- Whether a command outcome is a failure (raises an exception). -/
def cmdFails : CmdResult → Bool
  | .ok _ _ => false
  | .err _ _ _ => true
  | .exn _ => true

/-- Python: every raised object caught here derives from `Exception`
(`CalledProcessError` is a subclass), so the clause
`except Exception` matches both kinds of `UpdateError`. -/
def exceptionMatches : UpdateError → Bool := fun _ => true

/-- The clause `except CalledProcessError` matches only
`CalledProcessError`. -/
def calledProcessErrorMatches : UpdateError → Bool
  | .called _ _ _ => true
  | .generic _ => false

/-- How the halting branch exits: `sys.exit(2)` from the
`except Exception` clause or `sys.exit(3)` from the
`except CalledProcessError` clause. -/
inductive HaltKind where
  | exit2
  | exit3
deriving DecidableEq, Repr

/-- Dispatch of an exception raised by `update_one` to the `except` clauses
of `main`'s loop, in source order: `except Exception` (line 46) is tried
first, `except CalledProcessError` (line 50) second. -/
def dispatchHalt (e : UpdateError) : HaltKind :=
  if exceptionMatches e then .exit2
  else if calledProcessErrorMatches e then .exit3
  else .exit2

/-- Result of `main`'s loop over the hosts (`update.py` lines 42-57): the
hosts attempted (in order, an attempt being a call to `update_one`), the
number of errors counted, and whether the loop halted via `sys.exit`. -/
structure LoopResult where
  attempted : List String
  errorCount : Nat
  halted : Option HaltKind
deriving DecidableEq, Repr

/-- The batch loop of `main`: for each `(host, behaviour)` in order, call
`update_one`; on an exception, the matching `except` clause increments
`error_count`, and unless `args.ignore` is set it calls `sys.exit`, which
terminates the loop at once. -/
def runLoop (ignore : Bool) : List (String × HostBehavior) → LoopResult
  | [] => ⟨[], 0, none⟩
  | (name, b) :: rest =>
    match (update_one b).result with
    | .ok _ =>
      let r := runLoop ignore rest
      ⟨name :: r.attempted, r.errorCount, r.halted⟩
    | .error e =>
      if ignore then
        let r := runLoop ignore rest
        ⟨name :: r.attempted, r.errorCount + 1, r.halted⟩
      else
        ⟨[name], 1, some (dispatchHalt e)⟩

/-- How the process terminates after `main`'s loop: exit status 0 when the
loop completed with `error_count == 0`; `sys.exit(2)` / `sys.exit(3)` when
a clause halted it; `sys.exit('%d errors encountered')` (non-zero status
with a count message) when it completed with errors. -/
inductive ExitStatus where
  | ok
  | exit2
  | exit3
  | errorsMessage (n : Nat)
deriving DecidableEq, Repr

/-- `main` from the loop onward: run the loop, then
`if error_count: sys.exit('%d errors encountered')`. -/
def mainRun (ignore : Bool) (hosts : List (String × HostBehavior)) :
    LoopResult × ExitStatus :=
  let r := runLoop ignore hosts
  match r.halted with
  | some .exit2 => (r, .exit2)
  | some .exit3 => (r, .exit3)
  | none => (r, if r.errorCount ≠ 0 then .errorsMessage r.errorCount else .ok)

/-- The list comprehension `[row[0] for row in csv.reader(open(args.batch))]`:
the first field of every row; an empty row makes `row[0]` raise, which the
surrounding `try` turns into `sys.exit('Invalid input file: ...')`. -/
def extractFirstFields : List (List String) → Except String (List String)
  | [] => .ok []
  | [] :: _ => .error "Invalid input file"
  | (f :: _) :: rest =>
    match extractFirstFields rest with
    | .ok hs => .ok (f :: hs)
    | .error m => .error m

/-- The header strip (`update.py` lines 36-37):
`if hosts and hosts[0] == 'host': hosts = hosts[1:]`. -/
def stripHeader (hosts : List String) : List String :=
  match hosts with
  | h :: rest => if h = "host" then rest else h :: rest
  | [] => []

/-- The batch host list computed by `main` from the parsed CSV rows. -/
def hostsFromRows (rows : List (List String)) : Except String (List String) :=
  match extractFirstFields rows with
  | .ok hs => .ok (stripHeader hs)
  | .error m => .error m

/-- Split a character list at every occurrence of the separator. -/
def splitOnChar (c : Char) : List Char → List (List Char)
  | [] => [[]]
  | x :: xs =>
    let r := splitOnChar c xs
    if x = c then [] :: r
    else
      match r with
      | y :: ys => (x :: y) :: ys
      | [] => [[x]]

/-- Modelled from `csv.reader` semantics for simple unquoted content: split
the file into newline-terminated records, each record into comma-separated
fields (a trailing newline does not produce an extra empty record). -/
def csvRows (content : String) : List (List String) :=
  ((splitOnChar '\n' content.toList).filter (fun l => l ≠ [])).map
    (fun l => (splitOnChar ',' l).map (fun f => String.mk f))

/-- Python string truthiness: a string is truthy iff it is non-empty. -/
def pythonTruthy (s : String) : Bool := s ≠ ""

/-- The value of `args.password`: the supplied `-p` (`--password`) argument, or
the argparse default `''` when the flag is omitted
(`update.py` line 90: `default=''`). -/
def argPasswordValue : Option String → String
  | some p => p
  | none => ""

/-- The batch-mode password decision and whether the interactive prompt ran. -/
structure PasswordChoice where
  password : String
  prompted : Bool
deriving DecidableEq, Repr

/-- Batch-mode password selection (`update.py` lines 26-29):
`if args.password: password = args.password` else
`password = getpass('Default password: ') or ''`.  `promptResult` is what
the interactive prompt would return if invoked. -/
def batchPassword (argPassword : String) (promptResult : String) :
    PasswordChoice :=
  if pythonTruthy argPassword then ⟨argPassword, false⟩
  else ⟨if pythonTruthy promptResult then promptResult else "", true⟩

/-- Helper: with `--ignore` set, the loop attempts every host of the list,
in input order (so the attempted hosts are exactly the input names,
duplicates included). -/
theorem runLoop_ignore_attempted (hosts : List (String × HostBehavior)) :
    (runLoop true hosts).attempted = hosts.map Prod.fst := by
  induction hosts with
  | nil => rfl
  | cons hb rest ih =>
    obtain ⟨n, b⟩ := hb
    simp only [runLoop, List.map]
    rcases hres : (update_one b).result with u | e <;>
      simp [hres, ih]

/-- Helper: the loop never halts with `sys.exit(3)`: the clause
`except Exception` precedes `except CalledProcessError` and matches every
exception, so dispatch always selects `exit2`. -/
theorem runLoop_never_exit3 (ig : Bool) (hosts : List (String × HostBehavior)) :
    (runLoop ig hosts).halted ≠ some HaltKind.exit3 := by
  induction hosts with
  | nil => simp [runLoop]
  | cons hb rest ih =>
    obtain ⟨n, b⟩ := hb
    simp only [runLoop]
    rcases hres : (update_one b).result with e | u
    · cases ig with
      | true => simpa [hres] using ih
      | false => simp [hres, dispatchHalt, exceptionMatches]
    · simpa [hres] using ih

/-- C1: if the refresh command succeeds and the install command raises a
`CalledProcessError` whose returncode is `-signal.SIGHUP`, `update_one`
returns normally (Success) whatever the captured stdout/stderr, and the
batch loop counts no error and does not halt for that host, in either
halt mode. -/
theorem install_hangup_is_success (ro re io ie n : String) :
    (update_one ⟨.ok ro re, .err (-SIGHUP) io ie⟩).result = .ok ()
    ∧ runLoop true [(n, ⟨.ok ro re, .err (-SIGHUP) io ie⟩)] = ⟨[n], 0, none⟩
    ∧ runLoop false [(n, ⟨.ok ro re, .err (-SIGHUP) io ie⟩)] = ⟨[n], 0, none⟩ := by
  have hres : (update_one ⟨.ok ro re, .err (-SIGHUP) io ie⟩).result = .ok () := by
    simp [update_one, update_body, runCmd]
  exact ⟨hres, by simp [runLoop, hres], by simp [runLoop, hres]⟩

/-- C2: the claim expects a halting command-execution failure to exit with
code 3, distinguishable from the generic code 2.  In the code the clause
`except Exception` (line 46) precedes `except CalledProcessError`
(line 50); since `CalledProcessError` is a subclass of `Exception`, the
first clause catches everything and the `sys.exit(3)` branch is dead: a
halting command failure exits with code 2, and no run at all can exit
with code 3. -/
theorem command_failure_halts_with_exit2 :
    (mainRun false [("h1", ⟨.ok "" "", .err 2 "out" "err"⟩)]).2 = .exit2
    ∧ dispatchHalt (.called 2 "out" "err") = .exit2
    ∧ ∀ (ig : Bool) (hosts : List (String × HostBehavior)),
        (mainRun ig hosts).2 ≠ .exit3 := by
  refine ⟨by simp [mainRun, runLoop, update_one, update_body, runCmd, SIGHUP,
    dispatchHalt, exceptionMatches], rfl, ?_⟩
  intro ig hosts
  have h := runLoop_never_exit3 ig hosts
  simp only [mainRun]
  rcases hh : (runLoop ig hosts).halted with _ | k
  · simp [hh]
    split <;> simp
  · cases k with
    | exit2 => simp [hh]
    | exit3 => exact absurd hh h

/-- C3: if the refresh succeeds and the install command raises a
`CalledProcessError` whose returncode differs from `-signal.SIGHUP`, the
error propagates out of `update_one`, and the batch loop counts the host
as an error (then halts unless `--ignore` was given). -/
theorem install_failure_non_hangup_failed (rc : Int) (h : rc ≠ -SIGHUP)
    (ro re io ie n : String) :
    (update_one ⟨.ok ro re, .err rc io ie⟩).result = .error (.called rc io ie)
    ∧ runLoop true [(n, ⟨.ok ro re, .err rc io ie⟩)] = ⟨[n], 1, none⟩
    ∧ runLoop false [(n, ⟨.ok ro re, .err rc io ie⟩)] = ⟨[n], 1, some .exit2⟩ := by
  have hres : (update_one ⟨.ok ro re, .err rc io ie⟩).result
      = .error (.called rc io ie) := by
    simp [update_one, update_body, runCmd, h]
  exact ⟨hres, by simp [runLoop, hres],
    by simp [runLoop, hres, dispatchHalt, exceptionMatches]⟩

/-- Witness for C3 at returncode 2. -/
theorem install_failure_non_hangup_failed_witness :
    (2 : Int) ≠ -SIGHUP
    ∧ ((update_one ⟨.ok "" "", .err 2 "o" "e"⟩).result
          = .error (.called 2 "o" "e")
       ∧ runLoop true [("d", ⟨.ok "" "", .err 2 "o" "e"⟩)] = ⟨["d"], 1, none⟩
       ∧ runLoop false [("d", ⟨.ok "" "", .err 2 "o" "e"⟩)]
          = ⟨["d"], 1, some .exit2⟩) :=
  ⟨by decide, install_failure_non_hangup_failed 2 (by decide) "" "" "o" "e" "d"⟩

/-- C4: without `--ignore`, if the host at position k fails, the loop
attempts no host at a position greater than k: at most k + 1 hosts are
attempted. -/
theorem halt_on_error_stops_at_first_failure
    (hosts : List (String × HostBehavior)) (k : Nat) (hk : k < hosts.length)
    (hfail : updateFails (hosts.get ⟨k, hk⟩).2 = true) :
    (runLoop false hosts).attempted.length ≤ k + 1 := by
  induction hosts generalizing k with
  | nil => exact absurd hk (by simp)
  | cons hb rest ih =>
    obtain ⟨n, b⟩ := hb
    cases k with
    | zero =>
      have hb' : updateFails b = true := hfail
      unfold updateFails at hb'
      simp only [runLoop]
      rcases hres : (update_one b).result with e | u
      · simp [hres]
      · rw [hres] at hb'
        simp at hb'
    | succ j =>
      have hk' : j < rest.length := Nat.lt_of_succ_lt_succ (by simpa using hk)
      have hfail' : updateFails (rest.get ⟨j, hk'⟩).2 = true := hfail
      have ihj := ih j hk' hfail'
      simp only [runLoop]
      rcases hres : (update_one b).result with e | u
      · simp [hres]
      · simp [hres]
        omega

/-- Witness for C4: a two-host list whose first host fails; only one host
is attempted. -/
theorem halt_on_error_stops_at_first_failure_witness :
    updateFails (HostBehavior.mk (.exn "boom") (.ok "" "")) = true
    ∧ (runLoop false [("a", ⟨.exn "boom", .ok "" ""⟩),
        ("b", ⟨.ok "" "", .ok "" ""⟩)]).attempted.length ≤ 0 + 1 :=
  ⟨rfl, halt_on_error_stops_at_first_failure
    [("a", ⟨.exn "boom", .ok "" ""⟩), ("b", ⟨.ok "" "", .ok "" ""⟩)]
    0 (by simp) rfl⟩

/-- C5: with `--ignore`, the loop attempts exactly the hosts of the list,
in input order (a duplicated host is attempted twice), whatever the
individual outcomes; in particular the number of attempts equals the
length of the list. -/
theorem ignore_attempts_every_host (hosts : List (String × HostBehavior)) :
    (runLoop true hosts).attempted = hosts.map Prod.fst
    ∧ (runLoop true hosts).attempted.length = hosts.length := by
  refine ⟨runLoop_ignore_attempted hosts, ?_⟩
  rw [runLoop_ignore_attempted]
  simp

/-- C6: if the refresh command fails, for any reason, hangup included, the
error propagates out of `update_one` (the host's outcome is Failed) and
the install command is never executed. -/
theorem refresh_failure_failed_without_install (b : HostBehavior)
    (h : cmdFails b.refresh = true) :
    (update_one b).installAttempted = false
    ∧ ∃ e, (update_one b).result = Except.error e := by
  rcases hb : b.refresh with ⟨o, e⟩ | ⟨rc, o, e⟩ | m
  · rw [hb] at h
    simp [cmdFails] at h
  · exact ⟨by simp [update_one, update_body, runCmd, hb],
      .called rc o e, by simp [update_one, update_body, runCmd, hb]⟩
  · exact ⟨by simp [update_one, update_body, runCmd, hb],
      .generic m, by simp [update_one, update_body, runCmd, hb]⟩

/-- Witness for C6: a refresh failing with the hangup returncode still
yields Failed, install never run. -/
theorem refresh_failure_failed_without_install_witness :
    cmdFails (CmdResult.err (-SIGHUP) "o" "e") = true
    ∧ ((update_one ⟨.err (-SIGHUP) "o" "e", .ok "" ""⟩).installAttempted = false
       ∧ ∃ e, (update_one ⟨.err (-SIGHUP) "o" "e", .ok "" ""⟩).result
          = Except.error e) :=
  ⟨rfl, refresh_failure_failed_without_install ⟨.err (-SIGHUP) "o" "e", .ok "" ""⟩ rfl⟩

/-- C7: on an empty host list the loop attempts nothing, counts zero
errors, does not halt, and the process exits with status 0, in either
halt mode. -/
theorem empty_host_list_success (ig : Bool) :
    mainRun ig [] = (⟨[], 0, none⟩, .ok) := rfl

/-- C8: when the first row's first field is the literal `host`, that row is
skipped and the remaining rows' first fields become the host list in file
order; concretely the file content `host\ndev1\ndev2\n` yields exactly
`dev1` then `dev2`, which the (un-halted) loop attempts in that order. -/
theorem header_row_skipped (tail1 : List String) (rows : List (List String))
    (hs : List String) (h : extractFirstFields rows = .ok hs) :
    hostsFromRows (("host" :: tail1) :: rows) = .ok hs
    ∧ hostsFromRows (csvRows "host\ndev1\ndev2\n") = .ok ["dev1", "dev2"]
    ∧ ∀ f : String → HostBehavior,
        (runLoop true (["dev1", "dev2"].map (fun nm => (nm, f nm)))).attempted
          = ["dev1", "dev2"] := by
  refine ⟨?_, by rfl, ?_⟩
  · simp [hostsFromRows, extractFirstFields, h, stripHeader]
  · intro f
    rw [runLoop_ignore_attempted]
    simp

/-- Witness for C8 at the concrete two-device file. -/
theorem header_row_skipped_witness :
    extractFirstFields [["dev1"], ["dev2"]] = .ok ["dev1", "dev2"]
    ∧ (hostsFromRows (("host" :: []) :: [["dev1"], ["dev2"]])
          = .ok ["dev1", "dev2"]
       ∧ hostsFromRows (csvRows "host\ndev1\ndev2\n") = .ok ["dev1", "dev2"]
       ∧ ∀ f : String → HostBehavior,
          (runLoop true (["dev1", "dev2"].map (fun nm => (nm, f nm)))).attempted
            = ["dev1", "dev2"]) :=
  ⟨rfl, header_row_skipped [] [["dev1"], ["dev2"]] ["dev1", "dev2"] rfl⟩

/-- C9: the remote session is closed before `update_one` returns on every
exit path: normal success, the hangup early return, and every exception
path (refresh failure, install failure, transport error). -/
theorem session_closed_on_every_path (b : HostBehavior) :
    (update_one b).sessionClosed = true := rfl

/-- C10: in batch mode an explicit `-p` with the empty string is
indistinguishable from omitting the flag: both leave `args.password`
falsy, so both trigger the interactive prompt. -/
theorem empty_password_flag_prompts (r : String) :
    batchPassword (argPasswordValue (some "")) r
      = batchPassword (argPasswordValue none) r
    ∧ (batchPassword (argPasswordValue (some "")) r).prompted = true := by
  constructor
  · rfl
  · simp [batchPassword, argPasswordValue, pythonTruthy]

end Updater
